import Mathlib

/-!
Shallow embedding of the py-w3storage client (src/w3storage/__init__.py).

The client wraps one internal request primitive, `API._request`, which joins
path segments onto the base URL with a slash, attaches a bearer-auth mechanism
when a token is configured and no per-call auth override was supplied, issues
the HTTP call, and classifies non-success statuses into typed errors.  The
public operations (post_car, car, head_car, status, post_upload, user_uploads)
are thin wrappers extracting pieces of the response.

The network is modelled as an explicit function from the built `Request` to a
`Response`; each operation returns the request it sent together with its
result, so theorems can speak both about the outbound request and about the
value or error produced.  Python exceptions become `Except Err`; the calls to
the requests and datetime libraries that the source makes are modelled from
their documented behaviour.
-/

namespace W3

/-- JSON values, as produced by `response.json()`. -/
inductive JValue where
  | str (s : String)
  | int (n : Int)
  | bool (b : Bool)
  | null
  | arr (xs : List JValue)
  | obj (fields : List (String × JValue))

/-- Arguments carried by a raised `W3Exception`, mirroring the tuple that
`W3Exception.__init__` passes to `Exception.__init__`:  values taken from the
JSON error body, the raw response text, the numeric status code, or the
underlying `requests.HTTPError`. -/
inductive ExcArg where
  | jv (v : JValue)
  | text (s : String)
  | status (n : Nat)
  | httpExc (n : Nat)

/-- Errors surfaced by the client.  The first five model the exception classes
declared in the source (`W3BadRequest`, `W3Unauthorized`, `W3Forbidden`,
`W3InternalServerError`, `W3HTTPError`); the rest model Python runtime errors
raised by operations (`KeyError`, a failing `response.json()`, `TypeError`,
`ValueError`). -/
inductive Err where
  | badRequest (args : List ExcArg)
  | unauthorized (args : List ExcArg)
  | forbidden (args : List ExcArg)
  | internalServerError (args : List ExcArg)
  | httpError (args : List ExcArg)
  | keyError (k : String)
  | jsonDecodeError
  | typeError (msg : String)
  | valueError (msg : String)

/-- An HTTP response as the client observes it: status code, header dict,
body bytes (`r.content`), the result of attempting `r.json()` (`none` when the
body is not parseable JSON), and the decoded text (`r.text`). -/
structure Response where
  statusCode : Nat
  headers : List (String × String)
  content : List Nat
  jsonBody : Option JValue
  text : String

/-- The outbound HTTP request assembled by `requests.request`. -/
structure Request where
  method : String
  url : String
  headers : List (String × String)
  params : List (String × String)
  data : Option (List Nat)
  files : List (String × List Nat)

/-- The value of an `auth=` keyword argument: Python `None`, or a
`_BearerAuth` instance holding a key. -/
inductive AuthKw where
  | pyNone
  | bearer (key : String)

/-- The keyword arguments a caller hands to `API._request`.  `auth = none`
models the key being absent from `kwparams`; `auth = some a` models a per-call
auth override. -/
structure Kwparams where
  method : String
  data : Option (List Nat) := none
  headers : List (String × String) := []
  params : List (String × String) := []
  files : List (String × List Nat) := []
  auth : Option AuthKw := none

/-- Python values a caller may pass where the source applies `str(...)`
(the cid arguments) or branches on `type(...)` (the before argument). -/
inductive PyObj where
  | str (s : String)
  | int (n : Int)

/-- Python `str()` on the values of `PyObj`. -/
def pyStr : PyObj → String
  | .str s => s
  | .int n => toString n

/-- The client configuration built by `API.__init__`: base url and, when a
token was supplied, the `_BearerAuth` key (`_auth = _BearerAuth(token) if
token is not None else None`). -/
structure API where
  url : String := "https://api.web3.storage"
  auth : Option String := none

/-- Python `'/'.join(...)` on a list of strings. -/
def joinSlash : List String → String
  | [] => ""
  | [s] => s
  | s :: rest => s ++ "/" ++ joinSlash rest

/-- Assignment into a Python dict rendered as an association list: replaces
the value when the key is present, otherwise appends the pair. -/
def setValue : List (String × String) → String → String → List (String × String)
  | [], k, v => [(k, v)]
  | (k0, v0) :: rest, k, v =>
      if k0 = k then (k0, v) :: rest else (k0, v0) :: setValue rest k v

/-- Dict lookup on a JSON value that succeeds only on objects holding the key;
models the guarded part of `json[k]` inside the `try` of
`W3Exception.__init__`. -/
def jGet : JValue → String → Option JValue
  | .obj fields, k => fields.lookup k
  | _, _ => none

/-- Python `json[k]` as an expression that raises: `KeyError` when the key is
missing, `TypeError` when the value is not an object. -/
def jItem : JValue → String → Except Err JValue
  | .obj fields, k =>
      match fields.lookup k with
      | some v => .ok v
      | none => .error (.keyError k)
  | _, _ => .error (.typeError "value is not subscriptable")

/-- `r.json()`: the decoded body, or an error when it is not valid JSON. -/
def respJson (r : Response) : Except Err JValue :=
  match r.jsonBody with
  | some j => .ok j
  | none => .error .jsonDecodeError

/-- `W3Exception.__init__(response, *params)`: inside a bare try/except it
reads `json = response.json()` and builds `(json[name], json[message],
*params)`; any failure (unparseable body, missing key, non-object body) falls
back to `(response.text, *params)`.  Total: the construction never raises. -/
def w3args (r : Response) (extra : List ExcArg) : List ExcArg :=
  match r.jsonBody with
  | some j =>
      match jGet j "name", jGet j "message" with
      | some n, some m => .jv n :: .jv m :: extra
      | some _, none => .text r.text :: extra
      | none, _ => .text r.text :: extra
  | none => .text r.text :: extra

/-- `requests.Response.raise_for_status()` raises `HTTPError` exactly when the
status code lies in [400, 600). -/
def raiseForStatus (r : Response) : Bool :=
  decide (400 ≤ r.statusCode ∧ r.statusCode < 600)

/-- The tail of `API._request`: try `r.raise_for_status()` and return `r` when
it does not raise; otherwise dispatch on the status code, raising
`W3BadRequest` on 400, `W3Unauthorized` on 401, `W3Forbidden` on 403,
`W3InternalServerError` on [500, 600), and otherwise `W3HTTPError` carrying
the status code and the caught `HTTPError`. -/
def classifyResponse (r : Response) : Except Err Response :=
  if raiseForStatus r = false then .ok r
  else if r.statusCode = 400 then .error (.badRequest (w3args r []))
  else if r.statusCode = 401 then .error (.unauthorized (w3args r []))
  else if r.statusCode = 403 then .error (.forbidden (w3args r []))
  else if 500 ≤ r.statusCode ∧ r.statusCode < 600 then
    .error (.internalServerError (w3args r []))
  else .error (.httpError (w3args r [.status r.statusCode, .httpExc r.statusCode]))

/-- The effective auth mechanism of a call:  `_request` inserts the configured
`_BearerAuth` into `kwparams` only when `self._auth is not None` and the
caller did not pass `auth` itself. -/
def API.effAuth (api : API) (kw : Kwparams) : Option AuthKw :=
  match kw.auth with
  | some a => some a
  | none =>
      match api.auth with
      | some t => some (.bearer t)
      | none => none

/-- The request assembled by `requests.request(url = '/'.join((self._url,
*params)), **kwparams)`: a `_BearerAuth` mechanism, when attached, sets the
`authorization` header to `Bearer <key>` on the prepared request (requests
header dicts are case-insensitive, so this is the `Authorization` header);
`auth=None` and no auth leave the headers as given. -/
def API.buildRequest (api : API) (segs : List String) (kw : Kwparams) : Request :=
  let base : Request :=
    { method := kw.method
      url := joinSlash (api.url :: segs)
      headers := kw.headers
      params := kw.params
      data := kw.data
      files := kw.files }
  match api.effAuth kw with
  | some (.bearer k) =>
      { base with headers := setValue base.headers "authorization" ("Bearer " ++ k) }
  | some .pyNone => base
  | none => base

/-- `API._request`: build the request, hand it to the transport, and classify
the response.  Returns the outbound request together with the classified
outcome so both can be reasoned about. -/
def API.request (api : API) (segs : List String) (kw : Kwparams)
    (net : Request → Response) : Request × Except Err Response :=
  let req := api.buildRequest segs kw
  (req, classifyResponse (net req))

/-- UTF-8 encoding of one code point, as `str.encode` produces it. -/
def utf8Bytes (c : Char) : List Nat :=
  let n := c.toNat
  if n < 128 then [n]
  else if n < 2048 then [192 + n / 64, 128 + n % 64]
  else if n < 65536 then [224 + n / 4096, 128 + (n / 64) % 64, 128 + n % 64]
  else [240 + n / 262144, 128 + (n / 4096) % 64, 128 + (n / 64) % 64, 128 + n % 64]

/-- Bytes `urllib.parse.quote` leaves unescaped under its default
`safe = "/"`:  ASCII letters, digits, `_.-~`, and the slash. -/
def safeByte (b : Nat) : Bool :=
  decide ((65 ≤ b ∧ b ≤ 90) ∨ (97 ≤ b ∧ b ≤ 122) ∨ (48 ≤ b ∧ b ≤ 57) ∨
    b = 45 ∨ b = 46 ∨ b = 95 ∨ b = 126 ∨ b = 47)

/-- Upper-case hex digit for a value below 16. -/
def hexUpper (n : Nat) : Char :=
  if n < 10 then Char.ofNat (48 + n) else Char.ofNat (55 + n)

/-- One byte of `quote` output: the character itself when safe, otherwise its
percent escape with upper-case hex. -/
def quoteByte (b : Nat) : String :=
  if safeByte b then String.singleton (Char.ofNat b)
  else String.mk ['%', hexUpper (b / 16), hexUpper (b % 16)]

/-- `requests.utils.quote(s)`: UTF-8 encode and percent-escape every unsafe
byte. -/
def requestsQuote (s : String) : String :=
  String.join ((List.flatten (s.data.map utf8Bytes)).map quoteByte)

/-- A `datetime.datetime` value: calendar fields plus an optional fixed UTC
offset in minutes (`none` for a naive datetime). -/
structure Datetime where
  year : Nat
  month : Nat
  day : Nat
  hour : Nat
  minute : Nat
  second : Nat
  microsecond : Nat
  tzOffsetMinutes : Option Int
deriving DecidableEq

/-- Read exactly `k` decimal digits, most significant first. -/
def readNat : Nat → List Char → Option (Nat × List Char)
  | 0, cs => some (0, cs)
  | _ + 1, [] => none
  | k + 1, c :: cs =>
      if c.isDigit then
        (readNat k cs).map (fun p => ((c.toNat - 48) * 10 ^ k + p.1, p.2))
      else none

/-- Consume one expected character. -/
def expectChar (c : Char) : List Char → Option (List Char)
  | [] => none
  | d :: cs => if d = c then some cs else none

/-- Digit characters to their decimal value; `none` when the list is empty or
holds a non-digit. -/
def digitsToNatAux : List Char → Nat → Option Nat
  | [], acc => some acc
  | c :: cs, acc =>
      if c.isDigit then digitsToNatAux cs (acc * 10 + (c.toNat - 48)) else none

def digitsToNat : List Char → Option Nat
  | [] => none
  | cs => digitsToNatAux cs 0

/-- A `±HH:MM` UTC offset tail, valid when strictly below 24 hours. -/
def readOffset (cs : List Char) : Option Int := do
  let (hh, cs) ← readNat 2 cs
  let cs ← expectChar ':' cs
  let (mm, cs) ← readNat 2 cs
  if cs = [] ∧ mm ≤ 59 ∧ hh * 60 + mm < 24 * 60 then
    some ((hh : Int) * 60 + mm)
  else none

/-- The time zone suffix of an ISO string: nothing, `Z`, or a signed offset. -/
def readTzTail : List Char → Option (Option Int)
  | [] => some none
  | ['Z'] => some (some 0)
  | '+' :: cs => (readOffset cs).map (fun off => some off)
  | '-' :: cs => (readOffset cs).map (fun off => some (-off))
  | _ => none

/-- The time-of-day part `HH:MM[:SS[.ffffff]]` with optional zone suffix,
returning hour, minute, second, microsecond and offset. -/
def parseTimePart (cs : List Char) : Option (Nat × Nat × Nat × Nat × Option Int) := do
  let (h, cs) ← readNat 2 cs
  let cs ← expectChar ':' cs
  let (mi, cs) ← readNat 2 cs
  match cs with
  | ':' :: cs2 => do
      let (s, cs3) ← readNat 2 cs2
      match cs3 with
      | '.' :: cs4 =>
          let ds := cs4.takeWhile Char.isDigit
          let rest := cs4.dropWhile Char.isDigit
          if 1 ≤ ds.length ∧ ds.length ≤ 6 then do
            let fracVal ← digitsToNat ds
            let tz ← readTzTail rest
            pure (h, mi, s, fracVal * 10 ^ (6 - ds.length), tz)
          else none
      | _ => do
          let tz ← readTzTail cs3
          pure (h, mi, s, 0, tz)
  | _ => do
      let tz ← readTzTail cs
      pure (h, mi, 0, 0, tz)

/-- Length of a month in the proleptic Gregorian calendar. -/
def daysInMonth (y m : Nat) : Nat :=
  if m = 2 then
    (if y % 4 = 0 ∧ (y % 100 ≠ 0 ∨ y % 400 = 0) then 29 else 28)
  else if m = 4 ∨ m = 6 ∨ m = 9 ∨ m = 11 then 30
  else 31

/-- `YYYY-MM-DD[{T| }HH:MM[:SS[.ffffff]][Z|±HH:MM]]` with field validation, as
`datetime.fromisoformat` accepts. -/
def parseIso (cs : List Char) : Option Datetime := do
  let (y, cs) ← readNat 4 cs
  let cs ← expectChar '-' cs
  let (mo, cs) ← readNat 2 cs
  let cs ← expectChar '-' cs
  let (d, cs) ← readNat 2 cs
  let tp ← match cs with
    | [] => pure (0, 0, 0, 0, (none : Option Int))
    | c :: rest => if c = 'T' ∨ c = ' ' then parseTimePart rest else none
  let (h, mi, s, micro, tz) := tp
  if 1 ≤ y ∧ y ≤ 9999 ∧ 1 ≤ mo ∧ mo ≤ 12 ∧ 1 ≤ d ∧ d ≤ daysInMonth y mo ∧
      h ≤ 23 ∧ mi ≤ 59 ∧ s ≤ 59 then
    pure { year := y, month := mo, day := d, hour := h, minute := mi,
           second := s, microsecond := micro, tzOffsetMinutes := tz }
  else none

/-- `datetime.datetime.fromisoformat(s)`: the parsed value, or a `ValueError`
for a string it does not accept. -/
def fromisoformat (s : String) : Except Err Datetime :=
  match parseIso s.data with
  | some dt => .ok dt
  | none => .error (.valueError ("Invalid isoformat string: " ++ s))

/-- Decimal rendering zero-padded on the left to the given width. -/
def padNat (w n : Nat) : String :=
  let s := Nat.repr n
  String.mk (List.replicate (w - s.length) '0') ++ s

/-- The `±HH:MM` rendering of a UTC offset given in minutes. -/
def offsetString (off : Int) : String :=
  let sign := if off < 0 then "-" else "+"
  let a := off.natAbs
  sign ++ padNat 2 (a / 60) ++ ":" ++ padNat 2 (a % 60)

/-- `datetime.isoformat()`: `YYYY-MM-DDTHH:MM:SS`, with `.ffffff` when the
microsecond field is nonzero and the offset suffix when the value is aware. -/
def Datetime.isoformat (dt : Datetime) : String :=
  padNat 4 dt.year ++ "-" ++ padNat 2 dt.month ++ "-" ++ padNat 2 dt.day ++ "T" ++
  padNat 2 dt.hour ++ ":" ++ padNat 2 dt.minute ++ ":" ++ padNat 2 dt.second ++
  (if dt.microsecond = 0 then "" else "." ++ padNat 6 dt.microsecond) ++
  (match dt.tzOffsetMinutes with
   | none => ""
   | some off => offsetString off)

/-- Python `int(s)` on a decimal string with optional leading sign. -/
def pyIntOfString (s : String) : Except Err Int :=
  match s.data with
  | '-' :: rest =>
      match digitsToNat rest with
      | some n => .ok (-(n : Int))
      | none => .error (.valueError ("invalid literal for int: " ++ s))
  | cs =>
      match digitsToNat cs with
      | some n => .ok ((n : Int))
      | none => .error (.valueError ("invalid literal for int: " ++ s))

/-- Subscripting a `requests.Response`: the class defines no item access, so
`r[key]` raises `TypeError` no matter the key or the response. -/
def Response.getItem : Response → String → Except Err String :=
  fun _ _ => .error (.typeError "Response object is not subscriptable")

/-- `API.post_car(car, name)`: POST the payload to `upload`, with header
`X-NAME` set to `requests.utils.quote(name)` when a name was given, and
return `r.json()[cid]`. -/
def API.post_car (api : API) (car : List Nat) (name : Option String)
    (net : Request → Response) : Request × Except Err JValue :=
  let headers : List (String × String) :=
    match name with
    | none => []
    | some n => [("X-NAME", requestsQuote n)]
  let pr := api.request ["upload"]
    { method := "POST", data := some car, headers := headers } net
  (pr.1, pr.2.bind (fun r => (respJson r).bind (fun j => jItem j "cid")))

/-- `API.car(cid)`: GET `car/<str(cid)>` and return `r.content`. -/
def API.car (api : API) (cid : PyObj) (net : Request → Response) :
    Request × Except Err (List Nat) :=
  let pr := api.request ["car", pyStr cid] { method := "GET" } net
  (pr.1, pr.2.map Response.content)

/-- `API.head_car(cid)`: HEAD `car/<str(cid)>` and return
`int(r[Content-Length])` — note the source subscripts the response object
itself, not `r.headers`. -/
def API.head_car (api : API) (cid : PyObj) (net : Request → Response) :
    Request × Except Err Int :=
  let pr := api.request ["car", pyStr cid] { method := "HEAD" } net
  (pr.1, pr.2.bind (fun r => (r.getItem "Content-Length").bind pyIntOfString))

/-- `API.status(cid)`: GET `status/<str(cid)>` and return `r.json()`. -/
def API.status (api : API) (cid : PyObj) (net : Request → Response) :
    Request × Except Err JValue :=
  let pr := api.request ["status", pyStr cid] { method := "GET" } net
  (pr.1, pr.2.bind respJson)

/-- `API.post_upload(*files)`: POST every file as a `('file', file)` multipart
entry to `upload` and return `r.json()[cid]`. -/
def API.post_upload (api : API) (files : List (List Nat))
    (net : Request → Response) : Request × Except Err JValue :=
  let pr := api.request ["upload"]
    { method := "POST", files := files.map (fun f => ("file", f)) } net
  (pr.1, pr.2.bind (fun r => (respJson r).bind (fun j => jItem j "cid")))

/-- The request and json extraction `user_uploads` performs once its params
dict is assembled: `r = self._get('user', 'uploads', params=params)` and
`return r.json()`. -/
def API.userUploadsCall (api : API) (ps : List (String × String))
    (net : Request → Response) : Request × Except Err JValue :=
  let pr := api.request ["user", "uploads"] { method := "GET", params := ps } net
  (pr.1, pr.2.bind respJson)

/-- The `size` entry of the params dict: absent when `size is None`, otherwise
`int(size)`. -/
def sizeParams : Option Int → List (String × String)
  | none => []
  | some z => [("size", toString z)]

/-- `API.user_uploads(before, size)`: build the params dict — an integer
`before` hits `datetime.datetime.fromtimestamp()` called with no argument,
which raises `TypeError` before any request is made; a string `before` is
parsed with `fromisoformat` and re-rendered with `isoformat`; `size` is sent
through `int` — then GET `user/uploads` and return `r.json()`. -/
def API.user_uploads (api : API) (before : Option PyObj) (size : Option Int)
    (net : Request → Response) :
    Except Err (Request × Except Err JValue) :=
  match before with
  | none => .ok (api.userUploadsCall (sizeParams size) net)
  | some (.int _) =>
      .error (.typeError "fromtimestamp() missing required argument: timestamp (pos 1)")
  | some (.str s) =>
      match fromisoformat s with
      | .ok dt => .ok (api.userUploadsCall ([("before", dt.isoformat)] ++ sizeParams size) net)
      | .error e => .error e

/-- The public operations, under the names the specification uses, packaged
with their arguments. -/
inductive Op where
  | upload_archive (car : List Nat) (name : Option String)
  | fetch_archive (cid : PyObj)
  | head_archive (cid : PyObj)
  | fetch_status (cid : PyObj)
  | upload_files (files : List (List Nat))
  | list_uploads (before : Option PyObj) (size : Option Int)

/-- The outbound request an operation hands to the transport; `none` when the
operation raises before issuing any request. -/
def opRequest (api : API) (op : Op) (net : Request → Response) : Option Request :=
  match op with
  | .upload_archive car name => some (api.post_car car name net).1
  | .fetch_archive cid => some (api.car cid net).1
  | .head_archive cid => some (api.head_car cid net).1
  | .fetch_status cid => some (api.status cid net).1
  | .upload_files files => some (api.post_upload files net).1
  | .list_uploads before size =>
      match api.user_uploads before size net with
      | .ok pr => some pr.1
      | .error _ => none

/-! Concrete fixtures used by witnesses and counterexamples. -/

/-- A client configured with a token, at the default base url. -/
def api0 : API := { url := "https://api.web3.storage", auth := some "SECRET" }

/-- A successful response: 200, a `Content-Length` header, three body bytes
and a JSON body holding a cid. -/
def okUploadResponse : Response :=
  { statusCode := 200
    headers := [("Content-Length", "4096")]
    content := [99, 97, 114]
    jsonBody := some (.obj [("cid", .str "bafy123")])
    text := "" }

def netOk : Request → Response := fun _ => okUploadResponse

/-- A non-2xx, non-error response (300 Multiple Choices). -/
def resp300 : Response :=
  { statusCode := 300, headers := [], content := [], jsonBody := none,
    text := "multiple choices" }

/-- A non-2xx response outside the named branches (418). -/
def resp418 : Response :=
  { statusCode := 418, headers := [], content := [], jsonBody := none,
    text := "teapot" }

/-- An error response carrying the structured JSON error body. -/
def respNamed : Response :=
  { statusCode := 400, headers := [], content := [],
    jsonBody := some (.obj [("name", .str "InvalidCarError"),
                            ("message", .str "unexpected end of data")]),
    text := "raw body" }

/-! Helper lemmas. -/

theorem lookup_setValue_self (hs : List (String × String)) (k v : String) :
    (setValue hs k v).lookup k = some v := by
  induction hs with
  | nil => simp [setValue, List.lookup]
  | cons p rest ih =>
    obtain ⟨k0, v0⟩ := p
    by_cases h : k0 = k
    · subst h
      simp [setValue, List.lookup]
    · have hb : (k == k0) = false := beq_eq_false_iff_ne.mpr (Ne.symm h)
      simp [setValue, h, List.lookup, hb, ih]

theorem lookup_setValue_other (hs : List (String × String)) (k v k2 : String)
    (h : k2 ≠ k) : (setValue hs k v).lookup k2 = hs.lookup k2 := by
  have hb : (k2 == k) = false := beq_eq_false_iff_ne.mpr h
  induction hs with
  | nil => simp [setValue, List.lookup, hb]
  | cons p rest ih =>
    obtain ⟨k0, v0⟩ := p
    by_cases hk : k0 = k
    · subst hk
      simp [setValue, List.lookup, hb]
    · simp [setValue, hk, List.lookup, ih]

theorem lookup_auth_buildRequest (api : API) (segs : List String) (kw : Kwparams)
    (h1 : kw.auth = none) (h2 : kw.headers.lookup "authorization" = none) :
    (api.buildRequest segs kw).headers.lookup "authorization" =
      api.auth.map (fun k => "Bearer " ++ k) := by
  unfold API.buildRequest API.effAuth
  rw [h1]
  cases api.auth with
  | none => simpa using h2
  | some t => simp [lookup_setValue_self]

theorem classifyResponse_ok (r : Response)
    (h : r.statusCode < 400 ∨ 600 ≤ r.statusCode) :
    classifyResponse r = .ok r := by
  have hb : raiseForStatus r = false := by
    unfold raiseForStatus
    simp only [decide_eq_false_iff_not]
    omega
  unfold classifyResponse
  simp [hb]

theorem url_two_segs (u seg p : String) :
    joinSlash [u, seg, p] = u ++ ("/" ++ seg ++ "/") ++ p := by
  show u ++ "/" ++ (seg ++ "/" ++ p) = _
  simp only [String.append_assoc]

/-! Claims. -/

/-- C2, counterexample: the claim says every non-2xx status outside the named
branches raises the generic HTTP error, but a 300 response — non-2xx — passes
`raise_for_status` silently, so the request primitive returns it instead of
raising anything. -/
theorem C2_counterexample_status_300 :
    (API.request api0 ["status", "bafy"] { method := "GET" }
        (fun _ => resp300)).2 = Except.ok resp300 ∧
      resp300.statusCode = 300 := ⟨rfl, rfl⟩

/-- C2, amended: for every response, status 400 raises BadRequest, 401
Unauthorized, 403 Forbidden, [500, 600) ServerError, any other status in
[400, 500) the generic HTTP error carrying the numeric status code, and any
status outside [400, 600) — the 2xx range but also 1xx and 3xx — raises
nothing and the response is returned. -/
theorem C2_status_error_mapping (r : Response) :
    (r.statusCode = 400 →
      classifyResponse r = .error (.badRequest (w3args r []))) ∧
    (r.statusCode = 401 →
      classifyResponse r = .error (.unauthorized (w3args r []))) ∧
    (r.statusCode = 403 →
      classifyResponse r = .error (.forbidden (w3args r []))) ∧
    (500 ≤ r.statusCode → r.statusCode < 600 →
      classifyResponse r = .error (.internalServerError (w3args r []))) ∧
    (400 ≤ r.statusCode → r.statusCode < 500 →
      r.statusCode ≠ 400 → r.statusCode ≠ 401 → r.statusCode ≠ 403 →
      classifyResponse r =
        .error (.httpError (w3args r [.status r.statusCode, .httpExc r.statusCode]))) ∧
    (r.statusCode < 400 ∨ 600 ≤ r.statusCode → classifyResponse r = .ok r) := by
  refine ⟨?_, ?_, ?_, ?_, ?_, fun h => classifyResponse_ok r h⟩
  · intro h
    unfold classifyResponse raiseForStatus
    rw [h]
    simp
  · intro h
    unfold classifyResponse raiseForStatus
    rw [h]
    simp
  · intro h
    unfold classifyResponse raiseForStatus
    rw [h]
    simp
  · intro h5 h6
    have e1 : r.statusCode ≠ 400 := by omega
    have e2 : r.statusCode ≠ 401 := by omega
    have e3 : r.statusCode ≠ 403 := by omega
    have e4 : 400 ≤ r.statusCode ∧ r.statusCode < 600 := by omega
    unfold classifyResponse raiseForStatus
    simp [e1, e2, e3, e4, h5, h6]
  · intro h4 h5 e1 e2 e3
    have e4 : 400 ≤ r.statusCode ∧ r.statusCode < 600 := by omega
    have e5 : ¬(500 ≤ r.statusCode ∧ r.statusCode < 600) := by omega
    unfold classifyResponse raiseForStatus
    simp [e1, e2, e3, e4, e5, h5]

/-- C2, witness: a 418 response raises the generic HTTP error carrying 418
and the underlying HTTPError, with arguments built from the raw text. -/
theorem C2_status_error_mapping_witness :
    classifyResponse resp418 =
      .error (.httpError [.text "teapot", .status 418, .httpExc 418]) :=
  (C2_status_error_mapping resp418).2.2.2.2.1 (by decide) (by decide)
    (by decide) (by decide) (by decide)

/-- C3, code bug: on a 200 response that does carry `Content-Length: 4096`,
`head_car` raises `TypeError` instead of returning 4096, because the source
subscripts the response object itself (`r[Content-Length]`) where it had to
subscript `r.headers`; a `requests.Response` defines no item access. -/
theorem C3_head_car_type_error :
    (api0.head_car (.str "bafybeic") netOk).2 =
      .error (.typeError "Response object is not subscriptable") ∧
    okUploadResponse.headers.lookup "Content-Length" = some "4096" ∧
    okUploadResponse.statusCode = 200 := ⟨rfl, rfl, rfl⟩

/-- C5, counterexample: an integer `before` is never converted and no request
parameter is produced — the call fails with `TypeError` because the integer
branch invokes `datetime.datetime.fromtimestamp()` with no argument. -/
theorem C5_counterexample_int_before :
    api0.user_uploads (some (PyObj.int 1615568587)) none netOk =
      .error (.typeError "fromtimestamp() missing required argument: timestamp (pos 1)") :=
  rfl

/-- C1: through every public operation, the outbound request carries the
`authorization: Bearer <token>` header exactly when a token was configured at
construction — none of the operations passes a per-call auth override — and
when a caller does pass an auth override to the request primitive
(`auth=None`), the configured token is not attached. -/
theorem C1_bearer_header (tok : Option String) (u : String) (op : Op)
    (net : Request → Response) (req : Request)
    (h : opRequest { url := u, auth := tok } op net = some req) :
    req.headers.lookup "authorization" = tok.map (fun k => "Bearer " ++ k) ∧
    (∀ segs kw, kw.auth = some AuthKw.pyNone →
      (API.buildRequest { url := u, auth := tok } segs kw).headers = kw.headers) := by
  constructor
  · cases op with
    | upload_archive car name =>
        simp only [opRequest, Option.some_inj] at h
        subst h
        cases name with
        | none => exact lookup_auth_buildRequest _ _ _ rfl rfl
        | some n => exact lookup_auth_buildRequest _ _ _ rfl rfl
    | fetch_archive cid =>
        simp only [opRequest, Option.some_inj] at h
        subst h
        exact lookup_auth_buildRequest _ _ _ rfl rfl
    | head_archive cid =>
        simp only [opRequest, Option.some_inj] at h
        subst h
        exact lookup_auth_buildRequest _ _ _ rfl rfl
    | fetch_status cid =>
        simp only [opRequest, Option.some_inj] at h
        subst h
        exact lookup_auth_buildRequest _ _ _ rfl rfl
    | upload_files files =>
        simp only [opRequest, Option.some_inj] at h
        subst h
        exact lookup_auth_buildRequest _ _ _ rfl rfl
    | list_uploads before size =>
        cases before with
        | none =>
            simp only [opRequest, API.user_uploads, Option.some_inj] at h
            subst h
            exact lookup_auth_buildRequest _ _ _ rfl rfl
        | some b =>
            cases b with
            | int n => simp [opRequest, API.user_uploads] at h
            | str s =>
                cases hfi : fromisoformat s with
                | ok dt =>
                    simp only [opRequest, API.user_uploads, hfi,
                      Option.some_inj] at h
                    subst h
                    exact lookup_auth_buildRequest _ _ _ rfl rfl
                | error e => simp [opRequest, API.user_uploads, hfi] at h
  · intro segs kw hkw
    unfold API.buildRequest API.effAuth
    rw [hkw]

/-- C1, witness: with a configured token, a concrete fetch_status request
carries the bearer header. -/
theorem C1_bearer_header_witness :
    (api0.status (.str "bafy") netOk).1.headers.lookup "authorization" =
      some "Bearer SECRET" := by
  have h := C1_bearer_header (some "SECRET") "https://api.web3.storage"
    (.fetch_status (.str "bafy")) netOk
    ((api0.status (.str "bafy") netOk).1) rfl
  exact h.1.trans rfl

/-- C4: on a response whose status does not raise and whose JSON body holds a
string `cid` field, both `post_car` and `post_upload` return exactly that
string. -/
theorem C4_upload_returns_cid (api : API) (car : List Nat) (name : Option String)
    (files : List (List Nat)) (resp : Response) (c : String)
    (hok : resp.statusCode < 400 ∨ 600 ≤ resp.statusCode)
    (hcid : (respJson resp).bind (fun j => jItem j "cid") = .ok (.str c)) :
    (api.post_car car name (fun _ => resp)).2 = .ok (JValue.str c) ∧
    (api.post_upload files (fun _ => resp)).2 = .ok (JValue.str c) := by
  have hcl := classifyResponse_ok resp hok
  constructor
  · simp only [API.post_car, API.request, hcl]
    exact hcid
  · simp only [API.post_upload, API.request, hcl]
    exact hcid

/-- C4, witness: a 200 response with body holding cid `bafy123` makes both
upload operations return `bafy123`. -/
theorem C4_upload_returns_cid_witness :
    (api0.post_car [1, 2, 3] none (fun _ => okUploadResponse)).2 =
      .ok (JValue.str "bafy123") ∧
    (api0.post_upload [[1], [2]] (fun _ => okUploadResponse)).2 =
      .ok (JValue.str "bafy123") :=
  C4_upload_returns_cid api0 [1, 2, 3] none [[1], [2]] okUploadResponse
    "bafy123" (Or.inl (by decide)) rfl

/-- C8: on a response whose status does not raise, `car` returns the response
body bytes unaltered. -/
theorem C8_fetch_archive_content (api : API) (cid : PyObj) (resp : Response)
    (hok : resp.statusCode < 400 ∨ 600 ≤ resp.statusCode) :
    (api.car cid (fun _ => resp)).2 = .ok resp.content := by
  simp only [API.car, API.request, classifyResponse_ok resp hok]
  rfl

/-- C8, witness: the concrete 200 response body comes back byte-for-byte. -/
theorem C8_fetch_archive_content_witness :
    (api0.car (.str "bafy") (fun _ => okUploadResponse)).2 =
      .ok [99, 97, 114] :=
  C8_fetch_archive_content api0 (.str "bafy") okUploadResponse
    (Or.inl (by decide))

/-- C5, amended: for every integer passed as `before`, `user_uploads` raises
`TypeError` before any request is issued; the integer value is unused and no
`before` query parameter is sent. -/
theorem C5_int_before_raises (api : API) (n : Int) (size : Option Int)
    (net : Request → Response) :
    api.user_uploads (some (.int n)) size net =
      .error (.typeError "fromtimestamp() missing required argument: timestamp (pos 1)") :=
  rfl

theorem url_user_uploads (u : String) :
    joinSlash [u, "user", "uploads"] = u ++ "/user/uploads" := by
  show u ++ "/" ++ ("user" ++ "/" ++ "uploads") = _
  simp only [String.append_assoc]
  rfl

/-- C6: with a parseable ISO-8601 `before` string and an integer `size`, the
call issues a GET to `<base>/user/uploads` whose params are the normalized
isoformat rendering of `before` and the integer `size`; every omitted
argument contributes no parameter. -/
theorem C6_list_uploads_query (api : API) (s : String) (n : Int) (dt : Datetime)
    (net : Request → Response) (h : fromisoformat s = .ok dt) :
    (∀ pr, api.user_uploads (some (.str s)) (some n) net = .ok pr →
      pr.1.method = "GET" ∧
      pr.1.url = api.url ++ "/user/uploads" ∧
      pr.1.params = [("before", dt.isoformat), ("size", toString n)]) ∧
    (api.user_uploads (some (.str s)) (some n) net =
      .ok (api.userUploadsCall
        [("before", dt.isoformat), ("size", toString n)] net)) ∧
    (∀ pr, api.user_uploads (some (.str s)) none net = .ok pr →
      pr.1.params = [("before", dt.isoformat)]) ∧
    (∀ pr, api.user_uploads none (some n) net = .ok pr →
      pr.1.params = [("size", toString n)]) ∧
    (∀ pr, api.user_uploads none none net = .ok pr → pr.1.params = []) := by
  obtain ⟨u, a⟩ := api
  refine ⟨?_, ?_, ?_, ?_, ?_⟩
  · intro pr hpr
    simp only [API.user_uploads, h, Except.ok.injEq] at hpr
    subst hpr
    cases a <;> exact ⟨rfl, url_user_uploads u, rfl⟩
  · simp only [API.user_uploads, h]
    rfl
  · intro pr hpr
    simp only [API.user_uploads, h, Except.ok.injEq] at hpr
    subst hpr
    cases a <;> rfl
  · intro pr hpr
    simp only [API.user_uploads, Except.ok.injEq] at hpr
    subst hpr
    cases a <;> rfl
  · intro pr hpr
    simp only [API.user_uploads, Except.ok.injEq] at hpr
    subst hpr
    cases a <;> rfl

/-- C6, witness: `before="2021-03-12T17:03:07Z"` and `size=10` produce
exactly the params `before=2021-03-12T17:03:07+00:00` and `size=10` on the
GET to `/user/uploads`. -/
theorem C6_list_uploads_query_witness :
    api0.user_uploads (some (.str "2021-03-12T17:03:07Z")) (some 10) netOk =
      .ok (api0.userUploadsCall
        [("before", "2021-03-12T17:03:07+00:00"), ("size", "10")] netOk) := by
  have h := C6_list_uploads_query api0 "2021-03-12T17:03:07Z" 10
    ⟨2021, 3, 12, 17, 3, 7, 0, some 0⟩ netOk rfl
  exact h.2.1

/-- C7: a raised error takes its arguments from the `name` and `message`
fields of the decoded JSON body when both are present, and from the raw
response text otherwise; the construction is total, always yielding one of
those two shapes. -/
theorem C7_error_args_from_body (r : Response) (extra : List ExcArg) :
    (∀ j n m, r.jsonBody = some j → jGet j "name" = some n →
      jGet j "message" = some m →
      w3args r extra = .jv n :: .jv m :: extra) ∧
    (∀ j, r.jsonBody = some j →
      (jGet j "name" = none ∨ jGet j "message" = none) →
      w3args r extra = .text r.text :: extra) ∧
    (r.jsonBody = none → w3args r extra = .text r.text :: extra) ∧
    (w3args r extra = .text r.text :: extra ∨
      ∃ n m, w3args r extra = .jv n :: .jv m :: extra) := by
  refine ⟨?_, ?_, ?_, ?_⟩
  · intro j n m hj hn hm
    simp [w3args, hj, hn, hm]
  · intro j hj hnm
    rcases hnm with hn | hm
    · simp [w3args, hj, hn]
    · cases hn : jGet j "name" <;> simp [w3args, hj, hn, hm]
  · intro hj
    simp [w3args, hj]
  · cases hj : r.jsonBody with
    | none =>
        left
        simp [w3args, hj]
    | some j =>
        cases hn : jGet j "name" with
        | none =>
            left
            simp [w3args, hj, hn]
        | some n =>
            cases hm : jGet j "message" with
            | none =>
                left
                simp [w3args, hj, hn, hm]
            | some m =>
                right
                exact ⟨n, m, by simp [w3args, hj, hn, hm]⟩

/-- C7, witness: a body decoding to an object with `name` and `message`
yields exactly those two values as the error arguments. -/
theorem C7_error_args_from_body_witness :
    w3args respNamed [] =
      [.jv (.str "InvalidCarError"), .jv (.str "unexpected end of data")] :=
  (C7_error_args_from_body respNamed []).1 _ _ _ rfl rfl rfl

/-- C9: `post_car` with a name sets the `X-NAME` request header to the
percent-encoded name, and with no name sends no `X-NAME` header. -/
theorem C9_xname_header (api : API) (car : List Nat) (name : String)
    (net : Request → Response) :
    (api.post_car car (some name) net).1.headers.lookup "X-NAME" =
      some (requestsQuote name) ∧
    (api.post_car car none net).1.headers.lookup "X-NAME" = none := by
  obtain ⟨u, a⟩ := api
  cases a <;> exact ⟨rfl, rfl⟩

/-- C10: `car`, `head_car` and `status` coerce their cid argument with
`str()` before appending it as a path segment, so string and non-string
values alike are accepted and the URL ends in the string form. -/
theorem C10_cid_str_coercion (api : API) (cid : PyObj) (net : Request → Response) :
    (api.car cid net).1.url = api.url ++ "/car/" ++ pyStr cid ∧
    (api.head_car cid net).1.url = api.url ++ "/car/" ++ pyStr cid ∧
    (api.status cid net).1.url = api.url ++ "/status/" ++ pyStr cid ∧
    pyStr (.int 42) = "42" := by
  obtain ⟨u, a⟩ := api
  have hcar : joinSlash [u, "car", pyStr cid] = u ++ "/car/" ++ pyStr cid := by
    show u ++ "/" ++ ("car" ++ "/" ++ pyStr cid) = _
    simp only [String.append_assoc]
    rfl
  have hstatus : joinSlash [u, "status", pyStr cid] = u ++ "/status/" ++ pyStr cid := by
    show u ++ "/" ++ ("status" ++ "/" ++ pyStr cid) = _
    simp only [String.append_assoc]
    rfl
  cases a <;> exact ⟨hcar, hcar, hstatus, rfl⟩

end W3

